import Mathlib

/-!
Verification of the st-dagnositc data-import core.

Shallow embedding of src/st_dagnositc/core: models.py, schema.py,
processor.py and loader.py. Tables (polars DataFrames) are modelled as
ordered lists of named, storage-typed columns whose cells are optional
strings (a none cell is a null). Polars expressions are modelled as
descriptions that are materialised when a select runs, matching the lazy
evaluation of polars expressions: in particular, map_elements builds a
lazy expression and any exception thrown by the mapped function surfaces
when DataFrame.select materialises it, not when the expression is built.
Floating-point thresholds (0.6, 0.8) are modelled as exact rationals;
for the integer-valued counts involved, the comparisons agree with the
double-precision comparisons the source performs.
-/

/-- The DataType enumeration of models.py. -/
inductive DataType where
  | AUTO | STRING | INTEGER | FLOAT | BOOLEAN | DATETIME | DATE | TIME
deriving DecidableEq, Repr

/-- The FileFormat enumeration of models.py. -/
inductive FileFormat where
  | CSV | EXCEL | JSON | PARQUET
deriving DecidableEq, Repr

/-- Polars storage dtypes distinguished by ColumnMapper._detect_column_type. -/
inductive PolarsDType where
  | Int8 | Int16 | Int32 | Int64 | UInt8 | UInt16 | UInt32 | UInt64
  | Float32 | Float64 | Boolean | Date | Datetime | Time | Utf8 | Other
deriving DecidableEq, Repr

/-- One column of a table: a name, a storage dtype and cells (none = null). -/
structure Column where
  name : String
  dtype : PolarsDType
  cells : List (Option String)
deriving DecidableEq, Repr

/-- A polars DataFrame: an ordered list of named columns. -/
structure DataFrame where
  cols : List Column
deriving DecidableEq, Repr

/-- The ordered column names of a DataFrame (df.columns). -/
def DataFrame.columns (df : DataFrame) : List String :=
  df.cols.map (fun c => c.name)

/-- The shape (rows, cols) of a DataFrame (df.shape). -/
def DataFrame.shape (df : DataFrame) : Nat × Nat :=
  ((df.cols.head?.map (fun c => c.cells.length)).getD 0, df.cols.length)

/-- The per-column spec stored by SchemaDefinition.add_column. -/
structure ColumnSpec where
  data_type : DataType := DataType.AUTO
  required : Bool := false
  description : String := ""
deriving DecidableEq, Repr

/-- SchemaDefinition of schema.py: an insertion-ordered dict from name to spec. -/
structure SchemaDefinition where
  columns : List (String × ColumnSpec) := []

/-- The empty schema (the default Engine schema). -/
def empty_schema : SchemaDefinition := {}

/-- SchemaDefinition.get_required_columns. -/
def get_required_columns (s : SchemaDefinition) : List String :=
  (s.columns.filter (fun p => p.2.required)).map (fun p => p.1)

/-- ColumnMapping of models.py. The transformation function is modelled as a
fallible per-cell function on the string cell domain (Except models a raising
Python callable). -/
structure ColumnMapping where
  source_column : String
  target_column : String
  data_type : DataType := DataType.AUTO
  include_col : Bool := true
  required : Bool := false
  validation_rules : List String := []
  transformation_func : Option (String → Except String String) := none

/-- Metadata attached to a successful ImportResult by process_dataframe. -/
structure Metadata where
  original_shape : Nat × Nat
  processed_shape : Nat × Nat
  columns_mapped : Nat
deriving DecidableEq, Repr

/-- ImportResult of models.py. -/
structure ImportResult where
  success : Bool
  data : Option DataFrame := none
  mappings : List ColumnMapping := []
  errors : List String := []
  warnings : List String := []
  metadata : Option Metadata := none

/-! ## Type Inferrer (ColumnMapper._detect_column_type) -/

/-- Keep the first occurrence of each element, dropping later duplicates
(the iteration order of a Python dict or of first insertion into a set). -/
def dedup_first {α : Type} [DecidableEq α] (l : List α) : List α :=
  l.foldl (fun acc x => if x ∈ acc then acc else acc ++ [x]) []

/-- Whether every character in the list is an ASCII digit. -/
def all_digits (l : List Char) : Bool := l.all Char.isDigit

/-- Drop leading and trailing whitespace from a character list (str.strip). -/
def strip_ws (l : List Char) : List Char :=
  ((l.dropWhile Char.isWhitespace).reverse.dropWhile Char.isWhitespace).reverse

/-- Lowercase a string character by character (ASCII model of str.lower). -/
def lower_ascii (s : String) : String :=
  String.mk (s.toList.map Char.toLower)

/-- Lowercase and strip surrounding whitespace (source_col.lower().strip()
as performed at the top of _suggest_target_column). -/
def normalize_source (s : String) : String :=
  String.mk (strip_ws (s.toList.map Char.toLower))

/-- Whether a character list has the shape dddd-dd-dd of an ISO date. -/
def looks_like_date_chars : List Char → Bool
  | [y1, y2, y3, y4, '-', m1, m2, '-', d1, d2] =>
      all_digits [y1, y2, y3, y4, m1, m2, d1, d2]
  | _ => false

/-- Whether a character list has the shape dd:dd:dd of a clock time. -/
def looks_like_time_chars : List Char → Bool
  | [h1, h2, ':', m1, m2, ':', s1, s2] => all_digits [h1, h2, m1, m2, s1, s2]
  | _ => false

/-- Model of the datetime format inference that polars performs for
str.strptime when no format is given: the first non-null value must match a
supported datetime pattern (here an ISO date, optionally followed by a space
or a capital T and a clock time). -/
def looks_like_datetime_str (s : String) : Bool :=
  let l := strip_ws s.toList
  looks_like_date_chars l ||
    (decide (l.length = 19) && looks_like_date_chars (l.take 10) &&
      (decide (l.get? 10 = some ' ') || decide (l.get? 10 = some 'T')) &&
      looks_like_time_chars (l.drop 11))

/-- The first non-null value of a column's cells. -/
def first_non_null (cells : List (Option String)) : Option String :=
  (cells.filterMap id).head?

/-- Model of whether pl.col(c).str.strptime(pl.Datetime, strict=False) raises
when materialised on the given cells. With strict=False, per-value parse
failures become nulls without raising, but polars still raises a ComputeError
when it cannot infer a datetime format from the first non-null value (this is
what makes the STRING branch of the textual probe reachable; the repository
test test_detect_column_type_string relies on it). -/
def strptime_raises (cells : List (Option String)) : Bool :=
  match first_non_null cells with
  | none => false
  | some v => !(looks_like_datetime_str v)

/-- Whether a character list is an unsigned decimal number (digits with an
optional fractional part). -/
def float_chars (l : List Char) : Bool :=
  let ints := l.takeWhile Char.isDigit
  let rest := l.dropWhile Char.isDigit
  match rest with
  | [] => !ints.isEmpty
  | '.' :: frac => !ints.isEmpty && !frac.isEmpty && all_digits frac
  | _ => false

/-- Model of whether the non-strict cast of a string cell to pl.Float64
produces a non-null value. -/
def parse_float_ok (s : String) : Bool :=
  match strip_ws s.toList with
  | '-' :: r => float_chars r
  | '+' :: r => float_chars r
  | r => float_chars r

/-- The sample used by the textual probe: the non-null values among the first
100 cells (df_col.head(100).to_series().drop_nulls()). -/
def sample_of (col : Column) : List String :=
  (col.cells.take 100).filterMap id

/-- ColumnMapper._detect_column_type. Integer, float, boolean, date/datetime
and time storage classify directly; text storage runs the probe sequence on
the sample; everything else (and an empty sample) falls through to STRING.
The numeric probe compares the count of non-null cast results over the whole
column against 0.8 times the sample size (exact rational comparison). -/
def detect_column_type (col : Column) : DataType :=
  match col.dtype with
  | PolarsDType.Int8 | PolarsDType.Int16 | PolarsDType.Int32 | PolarsDType.Int64
  | PolarsDType.UInt8 | PolarsDType.UInt16 | PolarsDType.UInt32
  | PolarsDType.UInt64 => DataType.INTEGER
  | PolarsDType.Float32 | PolarsDType.Float64 => DataType.FLOAT
  | PolarsDType.Boolean => DataType.BOOLEAN
  | PolarsDType.Date | PolarsDType.Datetime => DataType.DATETIME
  | PolarsDType.Time => DataType.TIME
  | PolarsDType.Utf8 =>
    let sample := sample_of col
    if 0 < sample.length then
      if strptime_raises col.cells = false then DataType.DATETIME
      else
        let ok_count := (col.cells.filterMap id).countP parse_float_ok
        if 4 * sample.length < 5 * ok_count then DataType.FLOAT
        else DataType.STRING
    else DataType.STRING
  | PolarsDType.Other => DataType.STRING

/-! ## Schema Matcher (ColumnMapper._suggest_target_column and helpers) -/

/-- Whether sub occurs as a contiguous substring of hay (Python in). -/
def str_contains (hay sub : String) : Bool :=
  let h := hay.toList
  let s := sub.toList
  (List.range (h.length + 1)).any (fun i => s.isPrefixOf (h.drop i))

/-- The similarity threshold 0.6 of ColumnMapper. -/
def similarity_threshold : ℚ := 3 / 5

/-- ColumnMapper._calculate_similarity: 1.0 on equality, 0.8 when one string
contains the other, else the character-level Jaccard index. -/
def calculate_similarity (s1 s2 : String) : ℚ :=
  if s1 = s2 then 1
  else if str_contains s2 s1 || str_contains s1 s2 then 4 / 5
  else
    let set1 := dedup_first s1.toList
    let set2 := dedup_first s2.toList
    let inter := (set1.filter (fun c => decide (c ∈ set2))).length
    let uni := (dedup_first (s1.toList ++ s2.toList)).length
    if 0 < uni then (inter : ℚ) / (uni : ℚ) else 0

/-- The fixed ordered dictionary of domain synonym groups of
ColumnMapper._suggest_target_column. -/
def common_patterns : List (String × List String) :=
  [("name", ["name", "full_name", "fullname", "customer_name", "user_name"]),
   ("email", ["email", "email_address", "e_mail", "mail"]),
   ("phone", ["phone", "telephone", "mobile", "cell", "phone_number"]),
   ("age", ["age", "years_old", "birth_year"]),
   ("city", ["city", "location", "town", "municipality"]),
   ("country", ["country", "nation", "country_code"]),
   ("address", ["address", "street", "location", "addr"]),
   ("date", ["date", "created_at", "timestamp", "time"]),
   ("id", ["id", "identifier", "key", "primary_key"])]

/-- Whether a character survives the re.sub removing non-word, non-space
characters: a word character in the regex sense is alphanumeric or the
underscore (ASCII model of the Python \x5cw class). -/
def is_word_char (c : Char) : Bool := c.isAlphanum || c == '_'

/-- Replace each maximal run of whitespace by a single underscore; the flag
records whether the previous character was whitespace. -/
def collapse_ws_aux : Bool → List Char → List Char
  | _, [] => []
  | prev, c :: rest =>
    if c.isWhitespace then
      if prev then collapse_ws_aux true rest
      else '_' :: collapse_ws_aux true rest
    else c :: collapse_ws_aux false rest

/-- ColumnMapper._clean_column_name: lowercase, delete characters that are
neither word characters nor whitespace, strip, then collapse each whitespace
run to one underscore. -/
def clean_column_name (s : String) : String :=
  let kept :=
    (s.toList.map Char.toLower).filter (fun c => is_word_char c || c.isWhitespace)
  String.mk (collapse_ws_aux false (strip_ws kept))

/-- Stated from the claim wording for comparison with the source embedding:
strip every character that is not alphanumeric or whitespace (so underscores
are removed too), collapse internal whitespace runs to single underscores,
and lowercase the result. -/
def clean_column_name_claimed (s : String) : String :=
  let kept := s.toList.filter (fun c => c.isAlphanum || c.isWhitespace)
  String.mk ((collapse_ws_aux false (strip_ws kept)).map Char.toLower)

/-- ColumnMapper._suggest_target_column: first schema name whose similarity
with the normalized source name strictly exceeds the threshold; else the
first synonym group one of whose substrings occurs in the normalized source
name; else the cleaned source name. -/
def suggest_target_column (schema : SchemaDefinition) (source_col : String) :
    String :=
  let source_lower := normalize_source source_col
  match schema.columns.find?
      (fun p =>
        decide (similarity_threshold <
          calculate_similarity source_lower (lower_ascii p.1))) with
  | some p => p.1
  | none =>
    match common_patterns.find?
        (fun g => g.2.any (fun pat => str_contains source_lower pat)) with
    | some g => g.1
    | none => clean_column_name source_col

/-! ## Mapping Applier (DataProcessor.process_dataframe) -/

/-- A polars column expression as built by the mapping loop: source column,
requested coercion (AUTO is a no-op), optional element-wise transform and the
output alias. The expression is lazy: it is materialised by a select. -/
structure ColExpr where
  source : String
  coercion : DataType
  transform : Option (String → Except String String)
  out_name : String

/-- Model of DataProcessor._convert_column_type acting on one string cell at
materialisation time: STRING keeps the text, numeric and temporal coercions
keep the cell when it parses under the corresponding non-strict cast and turn
it into a null otherwise, BOOLEAN compares the lowercased text against the
truthy literal set (nulls stay null), AUTO is the identity. -/
def convert_cell : DataType → Option String → Option String
  | DataType.AUTO, v => v
  | DataType.STRING, v => v
  | DataType.INTEGER, v =>
      v.bind (fun s => if all_digits s.trim.toList && !s.trim.isEmpty
                       then some s else none)
  | DataType.FLOAT, v =>
      v.bind (fun s => if parse_float_ok s then some s else none)
  | DataType.BOOLEAN, v =>
      v.map (fun s =>
        if lower_ascii s = "true" ∨ lower_ascii s = "1" ∨ lower_ascii s = "yes" ∨
            lower_ascii s = "y" then "true" else "false")
  | DataType.DATETIME, v =>
      v.bind (fun s => if looks_like_datetime_str s then some s else none)
  | DataType.DATE, v =>
      v.bind (fun s => if looks_like_date_chars s.trim.toList then some s
                       else none)
  | DataType.TIME, v =>
      v.bind (fun s => if looks_like_time_chars s.trim.toList then some s
                       else none)

/-- The storage dtype an expression materialises to. -/
def convert_dtype : DataType → PolarsDType → PolarsDType
  | DataType.AUTO, d => d
  | DataType.STRING, _ => PolarsDType.Utf8
  | DataType.INTEGER, _ => PolarsDType.Int64
  | DataType.FLOAT, _ => PolarsDType.Float64
  | DataType.BOOLEAN, _ => PolarsDType.Boolean
  | DataType.DATETIME, _ => PolarsDType.Datetime
  | DataType.DATE, _ => PolarsDType.Date
  | DataType.TIME, _ => PolarsDType.Time

/-- The dtype of a materialised expression: a transform forces Utf8
(map_elements is called with return_dtype=pl.Utf8), otherwise the coercion
decides. -/
def expr_dtype (src_dtype : PolarsDType) (e : ColExpr) : PolarsDType :=
  match e.transform with
  | some _ => PolarsDType.Utf8
  | none => convert_dtype e.coercion src_dtype

/-- Apply a transform element-wise over the cells; nulls are passed through
without invoking the function, and the first raising invocation aborts the
materialisation with its error (polars propagates the exception out of the
select). -/
def apply_transform (f : String → Except String String) :
    List (Option String) → Except String (List (Option String))
  | [] => Except.ok []
  | none :: rest => (apply_transform f rest).map (fun l => none :: l)
  | some v :: rest =>
    match f v with
    | Except.error e => Except.error e
    | Except.ok w => (apply_transform f rest).map (fun l => some w :: l)

/-- Look a column up by name (first match, as in polars). -/
def find_column (df : DataFrame) (name : String) : Option Column :=
  df.cols.find? (fun c => c.name = name)

/-- Materialise one expression against a DataFrame. -/
def run_expr (df : DataFrame) (e : ColExpr) : Except String Column :=
  match find_column df e.source with
  | none => Except.error ("not found: " ++ e.source)
  | some col =>
    let coerced := (col.cells).map (convert_cell e.coercion)
    match e.transform with
    | none => Except.ok ⟨e.out_name, expr_dtype col.dtype e, coerced⟩
    | some f =>
      match apply_transform f coerced with
      | Except.error err => Except.error err
      | Except.ok cs => Except.ok ⟨e.out_name, expr_dtype col.dtype e, cs⟩

/-- DataFrame.select on a list of expressions: polars rejects duplicate
output names with a DuplicateError, and any exception raised while
materialising an expression (for example by a map_elements callable)
propagates out of the select. -/
def select_df (df : DataFrame) (es : List ColExpr) : Except String DataFrame :=
  if (es.map (fun e => e.out_name)).Nodup then
    match es.mapM (run_expr df) with
    | Except.error e => Except.error e
    | Except.ok cols => Except.ok ⟨cols⟩
  else Except.error "duplicate column names"

/-- The filter selecting the active set: include is true and the target
column is a non-empty string (Python truthiness of m.target_column). -/
def active_pred (m : ColumnMapping) : Bool :=
  m.include_col && decide (m.target_column ≠ "")

/-- The included mappings process_dataframe works on. -/
def active_mappings (mappings : List ColumnMapping) : List ColumnMapping :=
  mappings.filter active_pred

/-- The expression the mapping loop builds for one mapping. Note that the
try/except around map_elements in the source never fires: map_elements only
builds a lazy expression, so a raising transformation function surfaces later
inside select, and the warning branch is dead code (no warning is recorded
here). -/
def to_expr (m : ColumnMapping) : ColExpr :=
  ⟨m.source_column, m.data_type, m.transformation_func, m.target_column⟩

/-- The expression-building loop of process_dataframe (lines 162-187):
mappings whose source column is missing contribute an error and are skipped;
the others contribute their expression. Both lists keep the loop order. -/
def build_expressions (df : DataFrame) :
    List ColumnMapping → List ColExpr × List String
  | [] => ([], [])
  | m :: rest =>
    let br := build_expressions df rest
    if m.source_column ∈ df.columns then
      (to_expr m :: br.1, br.2)
    else
      (br.1, ("Source column \x27" ++ m.source_column ++ "\x27 not found")
        :: br.2)

/-- DataProcessor.process_dataframe. -/
def process_dataframe (df : DataFrame) (mappings : List ColumnMapping) :
    ImportResult :=
  let included := active_mappings mappings
  if included.isEmpty then
    { success := false, errors := ["No column mappings provided"] }
  else
    let be := build_expressions df included
    if be.1.isEmpty then
      { success := false, errors := be.2 ++ ["No valid mappings to process"] }
    else
      match select_df df be.1 with
      | Except.ok d =>
        { success := true, data := some d, mappings := included,
          errors := be.2,
          metadata := some ⟨df.shape, d.shape, included.length⟩ }
      | Except.error e =>
        { success := false,
          errors := be.2 ++ ["Column transformation failed: " ++ e] }

/-! ## Mapping Validator (DagnosticEngine.validate_mappings) -/

/-- The set of target columns of included mappings, as used by the
missing-required check: built from every mapping with include true, with no
restriction on the target being non-empty. -/
def included_targets (mappings : List ColumnMapping) : List String :=
  (mappings.filter (fun m => m.include_col)).map (fun m => m.target_column)

/-- The required schema columns not covered by any included target. -/
def missing_required (schema : SchemaDefinition)
    (mappings : List ColumnMapping) : List String :=
  (get_required_columns schema).filter
    (fun c => decide (c ∉ included_targets mappings))

/-- The duplicate-target computation: counts are kept only for mappings with
include true and a non-empty (truthy) target column, and a target is a
duplicate when its count exceeds one. The result keeps first-occurrence
order, as iterating the Python counting dict does. -/
def duplicate_targets (mappings : List ColumnMapping) : List String :=
  let ts := (active_mappings mappings).map (fun m => m.target_column)
  (dedup_first ts).filter (fun t => decide (1 < ts.count t))

/-- Render a list of names the way the f-string renders the Python set of
missing required columns. -/
def render_str_set (l : List String) : String :=
  "\x7b" ++ String.intercalate ", " (l.map (fun s => "\x27" ++ s ++ "\x27"))
    ++ "\x7d"

/-- Render a list of names the way the f-string renders the Python list of
duplicate target columns. -/
def render_str_list (l : List String) : String :=
  "[" ++ String.intercalate ", " (l.map (fun s => "\x27" ++ s ++ "\x27"))
    ++ "]"

/-- DagnosticEngine.validate_mappings: one error for missing required
columns when any exist, then one error for duplicate targets when any
exist. -/
def validate_mappings (schema : SchemaDefinition)
    (mappings : List ColumnMapping) : List String :=
  let missing := missing_required schema mappings
  let dups := duplicate_targets mappings
  (if missing.isEmpty then []
   else ["Missing required columns: " ++ render_str_set missing]) ++
  (if dups.isEmpty then []
   else ["Duplicate target columns: " ++ render_str_list dups])

/-- DagnosticEngine.process_data: validate first and short-circuit on any
validation error, else delegate to the processor. -/
def process_data (schema : SchemaDefinition) (df : DataFrame)
    (mappings : List ColumnMapping) : ImportResult :=
  let verrs := validate_mappings schema mappings
  if verrs.isEmpty then process_dataframe df mappings
  else { success := false, errors := verrs }

/-! ## Engine file loading (DagnosticEngine.load_file and loader.py) -/

/-- A source object handed to load_file: an optional name attribute and, for
each adapter, the outcome its load would produce on this source (the
adapters' internal parsing is third-party I/O outside the core; what the
engine observes of it is exactly this outcome). -/
structure FileObj where
  name : Option String
  parse_result : FileFormat → Except String DataFrame

/-- A registered loader: its format tag and its VALID_SUFFIXES list. -/
structure Loader where
  format : FileFormat
  valid_suffixes : List String
deriving DecidableEq, Repr

/-- Split a character list on dots (str.split with separator dot): the
resulting pieces never contain a dot, and splitting a dot-free list yields
that single piece. -/
def split_on_dot : List Char → List (List Char)
  | [] => [[]]
  | c :: rest =>
    if c = '.' then [] :: split_on_dot rest
    else
      match split_on_dot rest with
      | [] => [[c]]
      | h :: t => (c :: h) :: t

/-- BaseLoader.can_load: the source must expose a name, and the lowercased
text after the last dot of the name, with a dot prepended, must be one of
the valid suffixes. -/
def can_load (l : Loader) (f : FileObj) : Bool :=
  match f.name with
  | none => false
  | some n =>
    ("." ++ String.mk ((split_on_dot (n.toList.map Char.toLower)).getLastD []))
      ∈ l.valid_suffixes

/-- The engine's loader registry, in registration order: CSV, Excel, JSON,
Parquet. -/
def loaders : List Loader :=
  [⟨FileFormat.CSV, [".csv"]⟩,
   ⟨FileFormat.EXCEL, [".xlsx", ".xls"]⟩,
   ⟨FileFormat.JSON, [".json"]⟩,
   ⟨FileFormat.PARQUET, [".parquet"]⟩]

/-- The loop body of DagnosticEngine.load_file over a loader list. Besides
the (DataFrame option, errors) pair the model returns the formats whose load
was actually invoked, so the single-invocation property can be stated. -/
def load_file_go (f : FileObj) :
    List Loader → (Option DataFrame × List String) × List FileFormat
  | [] => ((none, ["Unsupported file format"]), [])
  | l :: rest =>
    if can_load l f then
      match f.parse_result l.format with
      | Except.ok df => ((some df, []), [l.format])
      | Except.error e => ((none, ["Failed to load file: " ++ e]), [l.format])
    else load_file_go f rest

/-- DagnosticEngine.load_file. -/
def load_file (f : FileObj) :
    (Option DataFrame × List String) × List FileFormat :=
  load_file_go f loaders

/-- The first registered loader whose can_load answers true. -/
def first_loader (f : FileObj) : Option Loader :=
  loaders.find? (fun l => can_load l f)

/-! ## Concrete tables, mappings and sources used by the theorems -/

/-- The output column an included AUTO mapping with no transform produces:
the source column's dtype and cells unchanged under the target name (the
second branch is junk for an absent source and is never reached under the
hypotheses that use this definition). -/
def mk_out (df : DataFrame) (m : ColumnMapping) : Column :=
  match find_column df m.source_column with
  | some col => ⟨m.target_column, col.dtype, col.cells⟩
  | none => ⟨m.target_column, PolarsDType.Utf8, []⟩

/-- A text column whose only cell is null: its sample is empty. -/
def ex_null_col : Column := ⟨"c", PolarsDType.Utf8, [none]⟩

/-- The text column of the repository test test_detect_column_type_string. -/
def ex_letters_col : Column :=
  ⟨"str_col", PolarsDType.Utf8,
   [some "a", some "b", some "c", some "d", some "e"]⟩

/-- The text column of test_detect_column_type_datetime_string. -/
def ex_date_col : Column :=
  ⟨"date_col", PolarsDType.Utf8,
   [some "2023-01-01", some "2023-01-02", some "2023-01-03"]⟩

/-- A one-column table used for the partial-failure result. -/
def ex_c1_df : DataFrame := ⟨[⟨"a", PolarsDType.Utf8, [some "1"]⟩]⟩

/-- One valid mapping plus one whose source column is absent. -/
def ex_c1_mappings : List ColumnMapping :=
  [{ source_column := "a", target_column := "t" },
   { source_column := "zz", target_column := "u" }]

/-- A transformation function that raises on every value. -/
def boom_transform : String → Except String String :=
  fun _ => Except.error "boom"

/-- A one-column table for the failing-transform run. -/
def ex_c3_df : DataFrame := ⟨[⟨"a", PolarsDType.Utf8, [some "x"]⟩]⟩

/-- An included AUTO mapping carrying the raising transformation. -/
def ex_c3_mapping : ColumnMapping :=
  { source_column := "a", target_column := "t",
    transformation_func := some boom_transform }

/-- Two included mappings that both leave the target column empty. -/
def ex_c4_mappings : List ColumnMapping :=
  [{ source_column := "a", target_column := "" },
   { source_column := "b", target_column := "" }]

/-- A well-formed single mapping used to instantiate the validator theorem. -/
def ex_c4w_mappings : List ColumnMapping :=
  [{ source_column := "a", target_column := "t" }]

/-- A two-column table for the AUTO round trip. -/
def ex_c6_df : DataFrame :=
  ⟨[⟨"a", PolarsDType.Utf8, [some "1", some "2"]⟩,
    ⟨"b", PolarsDType.Utf8, [some "x", some "y"]⟩]⟩

/-- A single AUTO mapping renaming column a to t. -/
def ex_c6_mappings : List ColumnMapping :=
  [{ source_column := "a", target_column := "t" }]

/-- A source whose name selects the JSON adapter and whose load raises. -/
def ex_c9_file : FileObj := ⟨some "data.json", fun _ => Except.error "bad"⟩

/-- The first of two included empty-target mappings. -/
def ex_c10_m1 : ColumnMapping := { source_column := "a", target_column := "" }

/-- Two included mappings sharing the empty target column. -/
def ex_c10_mappings : List ColumnMapping :=
  [ex_c10_m1, { source_column := "b", target_column := "" }]

/-! ## Helper lemmas -/

/-- Membership in the dedup fold with an arbitrary accumulator. -/
theorem mem_foldl_dedup {α : Type} [DecidableEq α] (x : α) (l : List α) :
    ∀ acc : List α,
      (x ∈ l.foldl (fun acc y => if y ∈ acc then acc else acc ++ [y]) acc ↔
        x ∈ acc ∨ x ∈ l) := by
  induction l with
  | nil => intro acc; simp
  | cons a l ih =>
    intro acc
    simp only [List.foldl_cons]
    rw [ih]
    by_cases h : a ∈ acc
    · simp only [if_pos h, List.mem_cons]
      constructor
      · rintro (hx | hx)
        · exact Or.inl hx
        · exact Or.inr (Or.inr hx)
      · rintro (hx | hx | hx)
        · exact Or.inl hx
        · exact Or.inl (hx ▸ h)
        · exact Or.inr hx
    · simp only [if_neg h, List.mem_append, List.mem_cons,
        List.mem_singleton]
      tauto

/-- dedup_first preserves membership. -/
theorem mem_dedup_first {α : Type} [DecidableEq α] (x : α) (l : List α) :
    x ∈ dedup_first l ↔ x ∈ l := by
  unfold dedup_first
  rw [mem_foldl_dedup]
  simp

/-- In every branch of process_dataframe, data is present exactly when
success is set. -/
theorem process_dataframe_data_isSome (df : DataFrame)
    (ms : List ColumnMapping) :
    (process_dataframe df ms).data.isSome =
      (process_dataframe df ms).success := by
  simp only [process_dataframe]
  split
  · rfl
  · split
    · rfl
    · split <;> rfl

/-- C1 (amended): for every table and mapping set, the ImportResult returned
by DataProcessor.process_dataframe, and hence DagnosticEngine.process_data,
has data present exactly when success is true (so success implies data is
present and failure implies data is absent); the errors list, however, may be
non-empty on success, see the counterexample. -/
theorem c1_success_iff_data_present (schema : SchemaDefinition)
    (df : DataFrame) (ms : List ColumnMapping) :
    (process_dataframe df ms).data.isSome =
      (process_dataframe df ms).success ∧
    (process_data schema df ms).data.isSome =
      (process_data schema df ms).success := by
  refine ⟨process_dataframe_data_isSome df ms, ?_⟩
  simp only [process_data]
  split
  · exact process_dataframe_data_isSome df ms
  · rfl

/-- C1 counterexample: a mapping set with one valid mapping and one whose
source column is missing yields success true together with a non-empty
errors list, refuting the claimed invariant that success implies errors is
empty. -/
theorem c1_counterexample :
    (process_data empty_schema ex_c1_df ex_c1_mappings).success = true ∧
    (process_data empty_schema ex_c1_df ex_c1_mappings).errors =
      ["Source column \x27zz\x27 not found"] := by
  exact ⟨by decide, by decide⟩

/-- C2 (amended): a text-typed column whose sample is empty (the column is
empty or all null) is classified as STRING, not DATETIME: the probe sequence
is guarded by the sample being non-empty and is skipped entirely. -/
theorem c2_empty_sample_is_string (col : Column)
    (h1 : col.dtype = PolarsDType.Utf8) (h2 : sample_of col = []) :
    detect_column_type col = DataType.STRING := by
  obtain ⟨n, d, cells⟩ := col
  cases h1
  simp only [detect_column_type]
  rw [h2]
  simp

/-- C2 witness: the all-null text column evaluates to STRING through the
theorem. -/
theorem c2_witness : detect_column_type ex_null_col = DataType.STRING :=
  c2_empty_sample_is_string ex_null_col rfl rfl

/-- C2 counterexample: on an all-null text column the Type Inferrer returns
STRING, so the claimed DATETIME classification is false. -/
theorem c2_counterexample :
    detect_column_type ex_null_col = DataType.STRING ∧
    detect_column_type ex_null_col ≠ DataType.DATETIME := by
  exact ⟨by decide, by decide⟩

/-- C3: evaluating the Applier at a mapping whose transformation function
raises shows the failure is fatal: the select that materialises the lazy
map_elements expression raises, the result is success false with the error
from the select handler, and no warning is recorded (the warning branch
around the map_elements call is dead code because building the lazy
expression cannot raise). -/
theorem c3_transform_failure_is_fatal :
    (process_dataframe ex_c3_df [ex_c3_mapping]).success = false ∧
    (process_dataframe ex_c3_df [ex_c3_mapping]).errors =
      ["Column transformation failed: boom"] ∧
    (process_dataframe ex_c3_df [ex_c3_mapping]).warnings = [] := by
  exact ⟨by decide, by decide, by decide⟩

/-- C7 (amended): for a text-typed column with a non-empty sample the Type
Inferrer returns DATETIME exactly when the non-strict datetime parse of the
column raises no error; when the parse raises (no datetime format can be
inferred from the first non-null value) the FLOAT and STRING outcomes of the
probe sequence are reachable. -/
theorem c7_datetime_iff_parse_ok (col : Column)
    (h1 : col.dtype = PolarsDType.Utf8) (h2 : sample_of col ≠ []) :
    (detect_column_type col = DataType.DATETIME ↔
      strptime_raises col.cells = false) := by
  obtain ⟨n, d, cells⟩ := col
  cases h1
  simp only [detect_column_type]
  have hl : 0 < (sample_of ⟨n, PolarsDType.Utf8, cells⟩).length :=
    List.length_pos.mpr h2
  rw [if_pos hl]
  by_cases hr : strptime_raises (Column.mk n PolarsDType.Utf8 cells).cells = false
  · rw [if_pos hr]
    simp [hr]
  · rw [if_neg hr]
    constructor
    · intro h
      exfalso
      revert h
      split <;> intro h <;> simp at h
    · intro h
      exact absurd h hr

/-- C7 witness: the ISO-date column classifies as DATETIME through the
theorem. -/
theorem c7_witness : detect_column_type ex_date_col = DataType.DATETIME :=
  (c7_datetime_iff_parse_ok ex_date_col rfl (by decide)).mpr (by decide)

/-- C7 counterexample: the plain-letters text column of the repository test
suite classifies as STRING, refuting the claim that every non-empty text
sample yields DATETIME. -/
theorem c7_counterexample :
    detect_column_type ex_letters_col = DataType.STRING ∧
    detect_column_type ex_letters_col ≠ DataType.DATETIME := by
  exact ⟨by decide, by decide⟩

/-- C8: whenever the active set (included mappings with a non-empty target)
is empty, the Applier fails with the single error No column mappings
provided and no data. -/
theorem c8_empty_active_set (df : DataFrame) (ms : List ColumnMapping)
    (h : active_mappings ms = []) :
    (process_dataframe df ms).success = false ∧
    (process_dataframe df ms).errors = ["No column mappings provided"] ∧
    (process_dataframe df ms).data = none := by
  simp [process_dataframe, h]

/-- C8 witness: the empty mapping set on the empty table. -/
theorem c8_witness :
    (process_dataframe ⟨[]⟩ []).success = false ∧
    (process_dataframe ⟨[]⟩ []).errors = ["No column mappings provided"] ∧
    (process_dataframe ⟨[]⟩ []).data = none :=
  c8_empty_active_set ⟨[]⟩ [] rfl

/-- Membership in the included-targets set of the missing-required check. -/
theorem mem_included_targets (ms : List ColumnMapping) (c : String) :
    c ∈ included_targets ms ↔
      ∃ m ∈ ms, m.include_col = true ∧ m.target_column = c := by
  unfold included_targets
  simp only [List.mem_map, List.mem_filter]
  constructor
  · rintro ⟨m, ⟨h1, h2⟩, h3⟩
    exact ⟨m, h1, h2, h3⟩
  · rintro ⟨m, h1, h2, h3⟩
    exact ⟨m, ⟨h1, h2⟩, h3⟩

/-- The duplicate report is empty exactly when the active targets are
pairwise distinct. -/
theorem duplicate_targets_eq_nil_iff (ms : List ColumnMapping) :
    duplicate_targets ms = [] ↔
      ((active_mappings ms).map (fun m => m.target_column)).Nodup := by
  simp only [duplicate_targets]
  rw [List.filter_eq_nil_iff]
  constructor
  · intro h
    rw [List.nodup_iff_count_le_one]
    intro a
    by_cases ha : a ∈ (active_mappings ms).map (fun m => m.target_column)
    · have := h a ((mem_dedup_first a _).mpr ha)
      simp only [decide_eq_true_eq] at this
      omega
    · rw [List.count_eq_zero.mpr ha]
      omega
  · intro h t ht
    rw [List.nodup_iff_count_le_one] at h
    simp only [decide_eq_true_eq]
    have := h t
    omega

/-- C4 (amended): for every schema and mapping set, the missing-required
report contains exactly the required columns covered by no included mapping
(empty targets included), and validate_mappings returns the empty list
exactly when there is no missing required column and the included mappings
with a non-empty target have pairwise distinct targets (duplicate detection
ignores included mappings whose target column is empty, see the
counterexample); validate_mappings is a total function and never raises. -/
theorem c4_validator_report (schema : SchemaDefinition)
    (ms : List ColumnMapping) :
    (∀ c, c ∈ missing_required schema ms ↔
      (c ∈ get_required_columns schema ∧
        ∀ m ∈ ms, m.include_col = true → m.target_column ≠ c)) ∧
    (validate_mappings schema ms = [] ↔
      (missing_required schema ms = [] ∧
        ((active_mappings ms).map (fun m => m.target_column)).Nodup)) := by
  constructor
  · intro c
    unfold missing_required
    rw [List.mem_filter]
    simp only [decide_eq_true_eq]
    rw [mem_included_targets ms c]
    push_neg
    constructor
    · rintro ⟨h1, h2⟩
      exact ⟨h1, fun m hm hinc => h2 m hm hinc⟩
    · rintro ⟨h1, h2⟩
      exact ⟨h1, fun m hm hinc => h2 m hm hinc⟩
  · rw [← duplicate_targets_eq_nil_iff]
    simp only [validate_mappings]
    constructor
    · intro h
      by_cases h1 : (missing_required schema ms).isEmpty = true
      · by_cases h2 : (duplicate_targets ms).isEmpty = true
        · exact ⟨List.isEmpty_iff.mp h1, List.isEmpty_iff.mp h2⟩
        · rw [if_pos h1, if_neg h2] at h
          simp at h
      · rw [if_neg h1] at h
        simp at h
    · rintro ⟨hm, hd⟩
      rw [if_pos (List.isEmpty_iff.mpr hm), if_pos (List.isEmpty_iff.mpr hd)]
      rfl

/-- C4 witness: a single well-formed mapping against the empty schema
validates cleanly through the theorem. -/
theorem c4_witness : validate_mappings empty_schema ex_c4w_mappings = [] :=
  (c4_validator_report empty_schema ex_c4w_mappings).2.mpr
    ⟨by decide, by decide⟩

/-- C4 counterexample: two included mappings that share the empty target
column are duplicate included targets, yet validate_mappings returns the
empty list, refuting the claimed equivalence as stated. -/
theorem c4_counterexample :
    validate_mappings empty_schema ex_c4_mappings = [] ∧
    ¬ (included_targets ex_c4_mappings).Nodup := by
  exact ⟨by decide, by decide⟩

/-- C5 (amended): when no schema column exceeds the similarity threshold
against the normalized source name and no synonym substring occurs in it,
suggestTarget falls back to the cleaned source name, where cleaning
lowercases and keeps every character that is alphanumeric, an underscore or
whitespace (the regex word class keeps underscores), strips surrounding
whitespace and collapses each whitespace run to a single underscore. -/
theorem c5_fallback_clean (schema : SchemaDefinition) (s : String)
    (h1 : ∀ p ∈ schema.columns,
      ¬ (similarity_threshold <
        calculate_similarity (normalize_source s) (lower_ascii p.1)))
    (h2 : ∀ g ∈ common_patterns, ∀ pat ∈ g.2,
      str_contains (normalize_source s) pat = false) :
    suggest_target_column schema s = clean_column_name s := by
  have e1 : schema.columns.find?
      (fun p =>
        decide (similarity_threshold <
          calculate_similarity (normalize_source s) (lower_ascii p.1)))
      = none := by
    rw [List.find?_eq_none]
    intro p hp
    simpa using h1 p hp
  have e2 : common_patterns.find?
      (fun g => g.2.any (fun pat =>
        str_contains (normalize_source s) pat)) = none := by
    rw [List.find?_eq_none]
    intro g hg
    simp only [List.any_eq_true, not_exists, not_and]
    intro pat hpat
    simp [h2 g hg pat hpat]
  simp only [suggest_target_column]
  rw [e1, e2]

/-- C5 witness: with an empty schema and a source name matching no synonym
group, the suggestion is the cleaned name. -/
theorem c5_witness :
    suggest_target_column empty_schema "a_b" = clean_column_name "a_b" :=
  c5_fallback_clean empty_schema "a_b"
    (fun p hp => absurd hp (List.not_mem_nil p)) (by decide)

/-- C5 counterexample: the fallback keeps underscores (the regex word class
includes them), so for the source name a_b it returns a_b, not the ab that
stripping every non-alphanumeric, non-whitespace character would produce. -/
theorem c5_counterexample :
    suggest_target_column empty_schema "a_b" = "a_b" ∧
    clean_column_name_claimed "a_b" = "ab" ∧
    suggest_target_column empty_schema "a_b" ≠
      clean_column_name_claimed "a_b" := by
  exact ⟨by decide, by decide, by decide⟩

/-- C10: the duplicate-target report never contains the empty string (its
counting loop skips included mappings with an empty, falsy target), while
the included-target set used by the missing-required check contains the
target of every included mapping, the empty string included. -/
theorem c10_duplicate_check_skips_empty_targets (ms : List ColumnMapping) :
    (∀ t ∈ duplicate_targets ms, t ≠ "") ∧
    (∀ m ∈ ms, m.include_col = true →
      m.target_column ∈ included_targets ms) := by
  constructor
  · intro t ht
    simp only [duplicate_targets] at ht
    rw [List.mem_filter] at ht
    have ht1 := (mem_dedup_first t _).mp ht.1
    rw [List.mem_map] at ht1
    obtain ⟨m, hm, rfl⟩ := ht1
    unfold active_mappings at hm
    rw [List.mem_filter] at hm
    have hp := hm.2
    unfold active_pred at hp
    simp only [Bool.and_eq_true, decide_eq_true_eq] at hp
    exact hp.2
  · intro m hm hinc
    unfold included_targets
    rw [List.mem_map]
    exact ⟨m, List.mem_filter.mpr ⟨hm, by simp [hinc]⟩, rfl⟩

/-- C10 witness: in the two-empty-target mapping set, the empty target is in
the included-target set but never reported as a duplicate. -/
theorem c10_witness :
    "" ∈ included_targets ex_c10_mappings ∧
    "" ∉ duplicate_targets ex_c10_mappings := by
  constructor
  · exact (c10_duplicate_check_skips_empty_targets ex_c10_mappings).2
      ex_c10_m1 (List.mem_cons_self _ _) rfl
  · intro h
    exact (c10_duplicate_check_skips_empty_targets ex_c10_mappings).1 "" h rfl

/-- Probing a loader list in which every can_load answers false returns the
unsupported-format error and invokes no load. -/
theorem load_file_go_all_false (f : FileObj) :
    ∀ ls : List Loader, (∀ l ∈ ls, can_load l f = false) →
      load_file_go f ls = ((none, ["Unsupported file format"]), []) := by
  intro ls
  induction ls with
  | nil => intro _; rfl
  | cons a ls ih =>
    intro h
    simp only [load_file_go]
    rw [if_neg (by simp [h a (List.mem_cons_self a ls)])]
    exact ih (fun l hl => h l (List.mem_cons_of_mem a hl))

/-- Probing stops at the first loader whose can_load answers true, and the
overall outcome is decided by that loader's load alone. -/
theorem load_file_go_first (f : FileObj) :
    ∀ ls : List Loader, ∀ l : Loader,
      ls.find? (fun l => can_load l f) = some l →
      load_file_go f ls =
        (match f.parse_result l.format with
         | Except.ok d => ((some d, []), [l.format])
         | Except.error e =>
             ((none, ["Failed to load file: " ++ e]), [l.format])) := by
  intro ls
  induction ls with
  | nil =>
    intro l h
    simp [List.find?] at h
  | cons a ls ih =>
    intro l h
    by_cases hc : can_load a f = true
    · rw [List.find?_cons_of_pos ls hc] at h
      injection h with h
      cases h
      simp only [load_file_go, if_pos hc]
    · rw [List.find?_cons_of_neg ls (by simp [hc])] at h
      simp only [load_file_go, if_neg hc]
      exact ih l h

/-- C9: load_file probes the registered adapters in registration order (CSV,
Excel, JSON, Parquet, the order of the loaders list), invokes load on at
most one adapter, returns the single error Unsupported file format and no
table when no adapter accepts the source, and when the first accepting
adapter's load raises it returns no table and one error describing the
failure (and the loaded table with no errors when it succeeds). -/
theorem c9_loader_probe (f : FileObj) :
    ((∀ l ∈ loaders, can_load l f = false) →
      load_file f = ((none, ["Unsupported file format"]), [])) ∧
    (load_file f).2.length ≤ 1 ∧
    (∀ l : Loader, first_loader f = some l →
      (load_file f).2 = [l.format]) ∧
    (∀ (l : Loader) (e : String), first_loader f = some l →
      f.parse_result l.format = Except.error e →
      (load_file f).1 = (none, ["Failed to load file: " ++ e])) ∧
    (∀ (l : Loader) (d : DataFrame), first_loader f = some l →
      f.parse_result l.format = Except.ok d →
      (load_file f).1 = (some d, [])) := by
  refine ⟨fun h => load_file_go_all_false f loaders h, ?_, ?_, ?_, ?_⟩
  · cases hfl : first_loader f with
    | none =>
      unfold first_loader at hfl
      have h := List.find?_eq_none.mp hfl
      unfold load_file
      rw [load_file_go_all_false f loaders (fun l hl => by simpa using h l hl)]
      simp
    | some l =>
      unfold first_loader at hfl
      unfold load_file
      rw [load_file_go_first f loaders l hfl]
      cases hp : f.parse_result l.format <;> simp
  · intro l hfl
    unfold first_loader at hfl
    unfold load_file
    rw [load_file_go_first f loaders l hfl]
    cases hp : f.parse_result l.format <;> simp
  · intro l e hfl hp
    unfold first_loader at hfl
    unfold load_file
    rw [load_file_go_first f loaders l hfl, hp]
  · intro l d hfl hp
    unfold first_loader at hfl
    unfold load_file
    rw [load_file_go_first f loaders l hfl, hp]

/-- C9 witness: a source named data.json selects the JSON adapter, whose
raising load yields the single descriptive error. -/
theorem c9_witness :
    (load_file ex_c9_file).1 = (none, ["Failed to load file: " ++ "bad"]) :=
  (c9_loader_probe ex_c9_file).2.2.2.1 ⟨FileFormat.JSON, [".json"]⟩ "bad"
    (by decide) rfl

/-- A name is among a DataFrame's columns exactly when find_column finds
it. -/
theorem mem_columns_iff (df : DataFrame) (s : String) :
    s ∈ df.columns ↔ (find_column df s).isSome = true := by
  unfold DataFrame.columns find_column
  rw [List.find?_isSome]
  simp only [List.mem_map, decide_eq_true_eq]

/-- When every source column is present, the build loop produces exactly one
expression per mapping and no error. -/
theorem build_expressions_all_present (df : DataFrame) :
    ∀ l : List ColumnMapping, (∀ m ∈ l, m.source_column ∈ df.columns) →
      build_expressions df l = (l.map to_expr, []) := by
  intro l
  induction l with
  | nil => intro _; rfl
  | cons m l ih =>
    intro h
    simp only [build_expressions]
    rw [if_pos (h m (List.mem_cons_self m l)),
      ih (fun x hx => h x (List.mem_cons_of_mem m hx))]
    rfl

/-- The output-column name is the mapping's target, in both branches. -/
theorem mk_out_name (df : DataFrame) (m : ColumnMapping) :
    (mk_out df m).name = m.target_column := by
  unfold mk_out
  cases find_column df m.source_column <;> rfl

/-- The AUTO coercion is the identity on cells. -/
theorem convert_cell_auto : convert_cell DataType.AUTO = id := by
  funext v
  cases v <;> rfl

/-- Materialising the expression of an AUTO mapping with no transform whose
source is present yields the source column under the target name. -/
theorem run_expr_auto (df : DataFrame) (m : ColumnMapping)
    (hA : m.data_type = DataType.AUTO)
    (hT : m.transformation_func.isNone = true)
    (hS : m.source_column ∈ df.columns) :
    run_expr df (to_expr m) = Except.ok (mk_out df m) := by
  have hs : (find_column df m.source_column).isSome = true :=
    (mem_columns_iff df _).mp hS
  obtain ⟨col, hcol⟩ := Option.isSome_iff_exists.mp hs
  have hTn : m.transformation_func = none := Option.isNone_iff_eq_none.mp hT
  unfold run_expr to_expr mk_out
  simp only [hcol, hA, hTn, convert_cell_auto, expr_dtype, convert_dtype,
    List.map_id]

/-- Materialising the expressions of a list of AUTO, transform-free mappings
with present sources succeeds with their output columns. -/
theorem mapM_run_expr_auto (df : DataFrame) :
    ∀ l : List ColumnMapping,
      (∀ m ∈ l, m.data_type = DataType.AUTO ∧
        m.transformation_func.isNone = true ∧ m.source_column ∈ df.columns) →
      (l.map to_expr).mapM (run_expr df) = Except.ok (l.map (mk_out df)) := by
  intro l
  induction l with
  | nil => intro _; rfl
  | cons m l ih =>
    intro h
    obtain ⟨hA, hT, hS⟩ := h m (List.mem_cons_self m l)
    simp only [List.map_cons, List.mapM_cons]
    rw [run_expr_auto df m hA hT hS,
      ih (fun x hx => h x (List.mem_cons_of_mem m hx))]
    rfl

/-- C6: for a mapping set of AUTO, transform-free mappings whose included
mappings carry a non-empty target and an existing source, with pairwise
distinct targets and at least one active mapping, the Applier succeeds and
the output table consists of exactly one column per active mapping holding
the source column's cells unchanged under the target name; any source column
named by no included mapping is absent from the output. -/
theorem c6_auto_roundtrip (df : DataFrame) (mappings : List ColumnMapping)
    (hauto : ∀ m ∈ mappings, m.data_type = DataType.AUTO ∧
      m.transformation_func.isNone = true)
    (_htgt : ∀ m ∈ mappings, m.include_col = true → m.target_column ≠ "")
    (hsrc : ∀ m ∈ mappings, m.include_col = true →
      m.source_column ∈ df.columns)
    (hnodup : ((active_mappings mappings).map
      (fun m => m.target_column)).Nodup)
    (hne : active_mappings mappings ≠ []) :
    (process_dataframe df mappings).success = true ∧
    (process_dataframe df mappings).data =
      some ⟨(active_mappings mappings).map (mk_out df)⟩ ∧
    (∀ c ∈ df.columns,
      (∀ m ∈ mappings, m.include_col = true →
        c ≠ m.source_column ∧ c ≠ m.target_column) →
      c ∉ (DataFrame.mk
        ((active_mappings mappings).map (mk_out df))).columns) := by
  have hsub : ∀ m ∈ active_mappings mappings,
      m ∈ mappings ∧ m.include_col = true := by
    intro m hm
    unfold active_mappings at hm
    rw [List.mem_filter] at hm
    refine ⟨hm.1, ?_⟩
    have hp := hm.2
    unfold active_pred at hp
    simp only [Bool.and_eq_true] at hp
    exact hp.1
  have hb : build_expressions df (active_mappings mappings) =
      ((active_mappings mappings).map to_expr, []) :=
    build_expressions_all_present df _
      (fun m hm => hsrc m (hsub m hm).1 (hsub m hm).2)
  have hmapM : ((active_mappings mappings).map to_expr).mapM (run_expr df) =
      Except.ok ((active_mappings mappings).map (mk_out df)) :=
    mapM_run_expr_auto df _ (fun m hm =>
      ⟨(hauto m (hsub m hm).1).1, (hauto m (hsub m hm).1).2,
        hsrc m (hsub m hm).1 (hsub m hm).2⟩)
  have hsel : select_df df ((active_mappings mappings).map to_expr) =
      Except.ok ⟨(active_mappings mappings).map (mk_out df)⟩ := by
    unfold select_df
    rw [if_pos (by rw [List.map_map]; exact hnodup), hmapM]
  have habs : ∀ c ∈ df.columns,
      (∀ m ∈ mappings, m.include_col = true →
        c ≠ m.source_column ∧ c ≠ m.target_column) →
      c ∉ (DataFrame.mk
        ((active_mappings mappings).map (mk_out df))).columns := by
    intro c _ hall hcmem
    unfold DataFrame.columns at hcmem
    rw [List.map_map, List.mem_map] at hcmem
    obtain ⟨m, hm, hname⟩ := hcmem
    have hn : m.target_column = c := by
      rw [← mk_out_name df m]
      exact hname
    exact (hall m (hsub m hm).1 (hsub m hm).2).2 hn.symm
  have hincl : ¬ ((active_mappings mappings).isEmpty = true) :=
    fun h => hne (List.isEmpty_iff.mp h)
  have hmapne : ¬ (((active_mappings mappings).map to_expr).isEmpty = true) := by
    rw [List.isEmpty_iff, List.map_eq_nil_iff]
    exact hne
  simp only [process_dataframe]
  rw [if_neg hincl, hb]
  rw [if_neg hmapne, hsel]
  exact ⟨rfl, rfl, habs⟩

/-- C6 witness: renaming column a to t on the two-column table keeps the
cells of a unchanged under the name t and drops column b. -/
theorem c6_witness :
    (process_dataframe ex_c6_df ex_c6_mappings).success = true ∧
    (process_dataframe ex_c6_df ex_c6_mappings).data =
      some ⟨(active_mappings ex_c6_mappings).map (mk_out ex_c6_df)⟩ ∧
    (∀ c ∈ ex_c6_df.columns,
      (∀ m ∈ ex_c6_mappings, m.include_col = true →
        c ≠ m.source_column ∧ c ≠ m.target_column) →
      c ∉ (DataFrame.mk
        ((active_mappings ex_c6_mappings).map (mk_out ex_c6_df))).columns) :=
  c6_auto_roundtrip ex_c6_df ex_c6_mappings (by decide) (by decide)
    (by decide) (by decide) (fun h => List.noConfusion h)
